import Mathlib

/-!
# Verification of the spend-analyzer expense-management application

A shallow embedding, in Lean 4, of the parts of the code base that the
specification makes claims about:

* the request-rate limiter (`supabase/functions/rate-limiter/index.ts`);
* the receipt-analysis serverless function
  (`supabase/functions/analyze-receipt/index.ts`), including its file
  validation, upstream-error handling and post-processing;
* the sign-up form handler (client-side password validation);
* the expense-creation and approval flows together with the row-level
  security policies of the `expenses` table
  (`supabase/migrations/20250909095927_*.sql`).

JavaScript numbers are modelled as exact rationals (`ℚ`), timestamps as
integers (milliseconds), and JS strings as Lean strings; `null`-able
values are modelled with `Option`.  String helpers used by the code
(`trim`, truthiness of strings, `Math.ceil` on millisecond differences)
are given explicit executable models next to their uses.
-/

namespace SpendAnalyzer

/-! ## JavaScript primitives -/

/-- JS `String.prototype.trim`: drop leading and trailing whitespace.
Modelled on the character list so that it is kernel-reducible. -/
def jsTrim (s : String) : String :=
  String.mk (((s.data.dropWhile Char.isWhitespace).reverse.dropWhile
      Char.isWhitespace).reverse)

/-- JS `Math.abs` on an exact rational. -/
def jsAbs (q : ℚ) : ℚ := if q < 0 then -q else q

theorem jsAbs_eq_abs (q : ℚ) : jsAbs q = |q| := by
  by_cases h : q < 0
  · simp [jsAbs, h, abs_of_neg h]
  · simp [jsAbs, h, abs_of_nonneg (not_lt.mp h)]

/-- JS `a || b` for a possibly-`null` string `a`: the empty string and
`null` are falsy, every other string is truthy. -/
def jsOrString (a : Option String) (b : String) : String :=
  match a with
  | some s => if s = "" then b else s
  | none => b

/-- `Math.ceil(ms / 1000)` for an integer number of milliseconds.
`Int` division is Euclidean, so `(ms + 999) / 1000 = ⌈ms / 1000⌉`. -/
def ceilSecondsOfMs (ms : Int) : Int :=
  (ms + 999) / 1000

/-! ## Rate limiter (`supabase/functions/rate-limiter/index.ts`) -/

/-- One entry of `rateLimitConfig`. -/
structure RateLimitRule where
  windowMs : Int
  maxRequests : Nat
  message : String
deriving DecidableEq, Repr

/-- The `rateLimitConfig` object: property lookup by endpoint name.  The
object literal has exactly the keys `/analyze-receipt`, `/auth/signup`,
`/auth/signin` and `default`. -/
def rateLimitConfig (endpoint : String) : Option RateLimitRule :=
  if endpoint = "/analyze-receipt" then
    some ⟨60000, 10, "Demasiados análisis de recibos. Intenta en 1 minuto."⟩
  else if endpoint = "/auth/signup" then
    some ⟨300000, 3, "Demasiados intentos de registro. Intenta en 5 minutos."⟩
  else if endpoint = "/auth/signin" then
    some ⟨300000, 5, "Demasiados intentos de login. Intenta en 5 minutos."⟩
  else if endpoint = "default" then
    some ⟨60000, 30, "Demasiadas solicitudes. Intenta más tarde."⟩
  else
    none

/-- `rateLimitConfig[endpoint] || rateLimitConfig.default`. -/
def ruleFor (endpoint : String) : RateLimitRule :=
  (rateLimitConfig endpoint).getD ⟨60000, 30, "Demasiadas solicitudes. Intenta más tarde."⟩

/-- A value of the `rateLimitStore` map: `{ count, resetTime }`. -/
structure RLEntry where
  count : Nat
  resetTime : Int
deriving DecidableEq, Repr

/-- The in-memory `rateLimitStore`, as a finite-support map from keys to
entries (state is threaded explicitly through `isRateLimited`). -/
def RateStore : Type := String → Option RLEntry

/-- The store at process start: empty. -/
def emptyStore : RateStore := fun _ => none

/-- `rateLimitStore.set(key, e)`. -/
def RateStore.set (s : RateStore) (k : String) (e : RLEntry) : RateStore :=
  fun k' => if k' = k then some e else s k'

/-- The return value of `isRateLimited`. -/
structure RLResult where
  limited : Bool
  message : Option String
  resetTime : Option Int
deriving DecidableEq, Repr

/-- `getRateLimitKey(clientIP, endpoint)`: the template literal
`` `${clientIP}:${endpoint}` ``. -/
def getRateLimitKey (clientIP endpoint : String) : String :=
  clientIP ++ ":" ++ endpoint

/-- `isRateLimited(clientIP, endpoint)`, with the ambient mutable state
(`rateLimitStore` and `Date.now()`) passed explicitly: returns the result
together with the updated store. -/
def isRateLimited (s : RateStore) (clientIP endpoint : String) (now : Int) :
    RLResult × RateStore :=
  let config := ruleFor endpoint
  let key := getRateLimitKey clientIP endpoint
  match s key with
  | none =>
      (⟨false, none, none⟩, s.set key ⟨1, now + config.windowMs⟩)
  | some entry =>
      if now > entry.resetTime then
        (⟨false, none, none⟩, s.set key ⟨1, now + config.windowMs⟩)
      else if entry.count < config.maxRequests then
        (⟨false, none, none⟩, s.set key ⟨entry.count + 1, entry.resetTime⟩)
      else
        (⟨true, some config.message, some entry.resetTime⟩, s)

/-- What the rate-limiter `serve` handler sends back: the HTTP status,
the `limited` flag that selected the branch, and the `Retry-After`
value (seconds) for a 429 response. -/
structure ServeResponse where
  status : Nat
  limited : Bool
  retryAfter : Option Int
deriving DecidableEq, Repr

/-- The response-building part of the `serve` handler, for a request that
already has a client IP and an endpoint: on a limited result it answers
429 with `Retry-After: Math.ceil((resetTime - Date.now()) / 1000)`
(the handler re-reads the clock immediately, modelled as the same `now`);
otherwise it answers 200 `{ allowed: true }`.  The non-null assertion
`rateLimitResult.resetTime!` is modelled by `Option.getD 0`; the limited
branch of `isRateLimited` always sets it. -/
def stepCall (s : RateStore) (clientIP endpoint : String) (now : Int) :
    ServeResponse × RateStore :=
  let p := isRateLimited s clientIP endpoint now
  if p.1.limited then
    (⟨429, true, some (ceilSecondsOfMs (p.1.resetTime.getD 0 - now))⟩, p.2)
  else
    (⟨200, false, none⟩, p.2)

/-- Client-IP extraction in the `serve` handler:
`req.headers.get('x-forwarded-for') || req.headers.get('x-real-ip') || 'unknown'`.
A missing header is `null`; an empty header value is falsy and also
falls through. -/
def clientIPOf (xff xri : Option String) : String :=
  jsOrString xff (jsOrString xri "unknown")

/-- The full `serve` handler of the rate limiter: extract the client IP
from the two headers, use the URL pathname as the endpoint, and build the
response. -/
def serveRateLimiter (s : RateStore) (xff xri : Option String)
    (pathname : String) (now : Int) : ServeResponse × RateStore :=
  stepCall s (clientIPOf xff xri) pathname now

/-- Run a sequence of requests for one `(clientIP, endpoint)` pair at the
given timestamps, threading the store; returns the list of responses and
the final store. -/
def runCalls (ip ep : String) (s : RateStore) : List Int → List ServeResponse × RateStore
  | [] => ([], s)
  | t :: ts =>
      let p := stepCall s ip ep t
      let q := runCalls ip ep p.2 ts
      (p.1 :: q.1, q.2)

example : (isRateLimited emptyStore "1.2.3.4" "/auth/signup" 0).1.limited = false := by decide
example : ((isRateLimited emptyStore "1.2.3.4" "/auth/signup" 0).2
    (getRateLimitKey "1.2.3.4" "/auth/signup")) = some ⟨1, 300000⟩ := by decide
example :
    (runCalls "a" "/auth/signup" emptyStore [0, 1, 2, 3, 4]).1.map ServeResponse.limited
      = [false, false, false, true, true] := by decide
example :
    (runCalls "a" "/auth/signup" emptyStore [0, 10, 20, 30]).1.map ServeResponse.retryAfter
      = [none, none, none, some 300] := by decide

/-! ## Receipt analysis (`supabase/functions/analyze-receipt/index.ts`) -/

/-- The `AnalysisResult` interface.  The required numeric fields are
exact rationals (the handler coerces them with `Number(...)`, the
identity on numbers). -/
structure AnalysisResult where
  vendor : String
  expense_date : String
  amount_gross : ℚ
  tax_vat : ℚ
  amount_net : ℚ
  currency : String
  category_suggestion : String
  payment_method_guess : String
  project_code_guess : Option String := none
  notes : Option String := none
deriving DecidableEq, Repr

/-- A character kept by `vendor.replace(/[^\w\s\-\.]/g, '')`: word
characters (ASCII letters, digits, underscore), whitespace, hyphen and
period survive; everything else is deleted. -/
def keptVendorChar (c : Char) : Bool :=
  c.isAlphanum || c == '_' || c.isWhitespace || c == '-' || c == '.'

/-- `vendor.trim().replace(/[^\w\s\-\.]/g, '').substring(0, 100)`. -/
def cleanVendor (v : String) : String :=
  String.mk (((jsTrim v).data.filter keptVendorChar).take 100)

/-- The shape test `/^\d{4}-\d{2}-\d{2}$/.test(s)`. -/
def isIsoDateShape (s : String) : Bool :=
  match s.data with
  | [y1, y2, y3, y4, d1, m1, m2, d2, a1, a2] =>
      y1.isDigit && y2.isDigit && y3.isDigit && y4.isDigit &&
      d1 == '-' && m1.isDigit && m2.isDigit && d2 == '-' &&
      a1.isDigit && a2.isDigit
  | _ => false

/-- Post-processing step 1 — "Validate financial coherence": when
`Math.abs(net + vat - gross) > 0.01`, auto-correct by recomputing
`amount_net = gross - tax_vat`. -/
def fixAmounts (r0 : AnalysisResult) : AnalysisResult :=
  let netPlusVat := r0.amount_net + r0.tax_vat
  let grossAmount := r0.amount_gross
  let difference := jsAbs (netPlusVat - grossAmount)
  if difference > 1/100 then
    { r0 with amount_net := grossAmount - r0.tax_vat } else r0

/-- Post-processing steps 2 and 3 — blank vendor fallback to
`"Comercio no identificado"`, then the vendor cleanup. -/
def fixVendor (r1 : AnalysisResult) : AnalysisResult :=
  let r2 := if (jsTrim r1.vendor).length = 0 then
      { r1 with vendor := "Comercio no identificado" } else r1
  { r2 with vendor := cleanVendor r2.vendor }

/-- Post-processing step 4 — dates not matching `\d{4}-\d{2}-\d{2}` are
coerced to `today` (`new Date().toISOString().split('T')[0]`, passed in
explicitly). -/
def fixDate (today : String) (r3 : AnalysisResult) : AnalysisResult :=
  if isIsoDateShape r3.expense_date then r3
  else { r3 with expense_date := today }

/-- Post-processing step 5 — blank currency defaults to `"EUR"`. -/
def fixCurrency (r4 : AnalysisResult) : AnalysisResult :=
  if (jsTrim r4.currency).length = 0 then { r4 with currency := "EUR" } else r4

/-- Post-processing of a parsed model output: the five steps of the
handler in source order. -/
def postProcess (today : String) (r0 : AnalysisResult) : AnalysisResult :=
  fixCurrency (fixDate today (fixVendor (fixAmounts r0)))

/-- What the handler knows about the uploaded file:
`file.name`, `file.type`, `file.size`. -/
structure FileUpload where
  name : String
  mimeType : String
  size : Nat
deriving DecidableEq, Repr

/-- The possible outcomes of the one `fetch` to the Gemini endpoint, as
observed by the handler: a non-OK HTTP response, an OK response with no
generated text, generated text that `JSON.parse` rejects, or a parsed
`AnalysisResult`. -/
inductive AIOutcome
  | httpError (status : Nat)
  | noText
  | badJson
  | ok (r : AnalysisResult)
deriving DecidableEq, Repr

/-- The response of the analyze-receipt handler: HTTP status, the
`success` field of the JSON body when present, the returned `data`,
whether the body carries an `error` message, and how many times the
Gemini endpoint was called while serving the request. -/
structure HandlerResponse where
  status : Nat
  success : Option Bool
  data : Option AnalysisResult
  hasError : Bool
  aiCalls : Nat
deriving DecidableEq, Repr

/-- `const allowedTypes = ['image/jpeg', 'image/jpg', 'image/png', 'application/pdf']`. -/
def allowedTypes : List String :=
  ["image/jpeg", "image/jpg", "image/png", "application/pdf"]

/-- `const maxSize = 10 * 1024 * 1024`. -/
def maxSize : Nat := 10 * 1024 * 1024

/-- The analyze-receipt `serve` handler, from the API-key check to the
final response.  `hasApiKey` models `Deno.env.get('GEMINI_API_KEY')`
being set, `file?` models `formData.get('file')`, `ai` the outcome of the
single upstream call, `today` the current date string.  The three
upstream failure outcomes `throw` inside `try` and are turned by the
`catch` block into one HTTP 500 response with body
`{ success: false, error: ... }`; no code path retries the fetch. -/
def analyzeReceipt (hasApiKey : Bool) (file? : Option FileUpload)
    (ai : AIOutcome) (today : String) : HandlerResponse :=
  if !hasApiKey then ⟨500, none, none, true, 0⟩
  else
    match file? with
    | none => ⟨400, none, none, true, 0⟩
    | some file =>
        if !(allowedTypes.contains file.mimeType) then ⟨400, none, none, true, 0⟩
        else if file.size > maxSize then ⟨400, none, none, true, 0⟩
        else
          match ai with
          | .httpError _ => ⟨500, some false, none, true, 1⟩
          | .noText => ⟨500, some false, none, true, 1⟩
          | .badJson => ⟨500, some false, none, true, 1⟩
          | .ok r => ⟨200, some true, some (postProcess today r), false, 1⟩

example :
    (analyzeReceipt true (some ⟨"r.png", "image/png", 100⟩)
        (.ok ⟨"Mercadona, S.A.!", "07/09/2025", 121, 21, 50, "", "Otros", "CARD", none, none⟩)
        "2025-09-08").data
      = some ⟨"Mercadona S.A.", "2025-09-08", 121, 21, 100, "EUR", "Otros", "CARD", none, none⟩ := by
  norm_num [analyzeReceipt, allowedTypes, maxSize, postProcess, fixAmounts, fixVendor,
    fixDate, fixCurrency, jsAbs, cleanVendor, jsTrim, keptVendorChar, isIsoDateShape]
  decide

example :
    analyzeReceipt true (some ⟨"r.gif", "image/gif", 100⟩) .noText "2025-09-08"
      = ⟨400, none, none, true, 0⟩ := by decide

/-! ## Sign-up handler (`handleSignUp` in the auth page) -/

/-- The fields of the auth form used by `handleSignUp`. -/
structure SignUpForm where
  name : String
  email : String
  password : String
  confirmPassword : String
deriving DecidableEq, Repr

/-- The observable outcome of one `handleSignUp` run: the validation
error set by `setError`, and whether `supabase.auth.signUp` (the only
network call of the handler) was invoked. -/
structure SignUpAttempt where
  error : Option String
  networkCalled : Bool
deriving DecidableEq, Repr

/-- `handleSignUp`, up to the `supabase.auth.signUp` call.  Client-side
checks run in source order: password/confirmation mismatch, password
shorter than 6 characters, then the `ClientRateLimiter` check
(`rateAllowed` is its verdict and `rateMessage` the message it would
produce); each failing check calls `setError` and returns before any
network traffic. -/
def handleSignUp (form : SignUpForm) (rateAllowed : Bool) (rateMessage : String) :
    SignUpAttempt :=
  if form.password ≠ form.confirmPassword then
    ⟨some "Las contraseñas no coinciden", false⟩
  else if form.password.length < 6 then
    ⟨some "La contraseña debe tener al menos 6 caracteres", false⟩
  else if !rateAllowed then
    ⟨some rateMessage, false⟩
  else
    ⟨none, true⟩

example : handleSignUp ⟨"n", "e@x.com", "abc", "abc"⟩ true "m"
    = ⟨some "La contraseña debe tener al menos 6 caracteres", false⟩ := by decide

/-! ## Expense creation (`saveExpense` in the upload component) -/

/-- The `source` column of `expenses`. -/
inductive ExpenseSource
  | MANUAL
  | AI_EXTRACTED
deriving DecidableEq, Repr

/-- The `status` column of `expenses`. -/
inductive ExpenseStatus
  | PENDING
  | APPROVED
  | REJECTED
deriving DecidableEq, Repr

/-- The form state of the upload component at save time.  Numeric text
fields carry the value `parseFloat` produces on them: `none` models
`NaN` (empty or unparsable text). -/
structure ExpenseForm where
  vendor : String
  expense_date : String
  amount_net : Option ℚ
  tax_vat : Option ℚ
  amount_gross : Option ℚ
  currency : String
deriving DecidableEq, Repr

/-- The columns of the `expenses` insert built by `saveExpense` that the
claims are about.  `amount_gross` keeps the raw `parseFloat` result
(there is no `|| 0` fallback on it in the source). -/
structure ExpenseRow where
  employee_id : Nat
  vendor : String
  expense_date : String
  amount_net : ℚ
  tax_vat : ℚ
  amount_gross : Option ℚ
  currency : String
  source : ExpenseSource
  status : ExpenseStatus
deriving DecidableEq, Repr

/-- Pre-filling the form after a successful analysis (the
`setFormData` call next to `setExtractedData(result.data)`); the number
fields go through `toString`/`parseFloat`, the identity on the modelled
exact values. -/
def applyExtracted (form : ExpenseForm) (d : AnalysisResult) : ExpenseForm :=
  { form with
    vendor := d.vendor
    expense_date := d.expense_date
    amount_net := some d.amount_net
    tax_vat := some d.tax_vat
    amount_gross := some d.amount_gross
    currency := if d.currency = "" then "EUR" else d.currency }

/-- The `expenseData` object inserted by `saveExpense`, for the session
user `uid`, the current form and the current `extractedData` state:
`parseFloat(...) || 0` on net and VAT, `status: 'PENDING'`, and
`source: extractedData ? 'AI_EXTRACTED' : 'MANUAL'`. -/
def buildExpenseRow (uid : Nat) (form : ExpenseForm)
    (extractedData : Option AnalysisResult) : ExpenseRow :=
  { employee_id := uid
    vendor := jsTrim form.vendor
    expense_date := form.expense_date
    amount_net := form.amount_net.getD 0
    tax_vat := form.tax_vat.getD 0
    amount_gross := form.amount_gross
    currency := form.currency
    source := if extractedData.isSome then .AI_EXTRACTED else .MANUAL
    status := .PENDING }

/-! ## Expense status transitions: row-level policies and admin actions -/

/-- The `role` column of `profiles`. -/
inductive Role
  | ADMIN
  | EMPLOYEE
deriving DecidableEq, Repr

/-- The profile row of the acting user (`auth.uid()` and its role). -/
structure Profile where
  id : Nat
  role : Role
deriving DecidableEq, Repr

/-- The subquery
`EXISTS (SELECT 1 FROM profiles WHERE id = auth.uid() AND role = 'ADMIN')`
evaluated for the actor. -/
def isAdminActor (p : Profile) : Bool :=
  p.role == Role.ADMIN

/-- The predicate of the policy
`"Users can update their own pending expenses"`:
`employee_id = auth.uid() AND status = 'PENDING'`. -/
def ownPending (uid : Nat) (row : ExpenseRow) : Bool :=
  row.employee_id == uid && row.status == ExpenseStatus.PENDING

/-- Whether the row-level policies of the `expenses` table let `actor`
rewrite `oldRow` into `newRow`.  The two permissive `FOR UPDATE`
policies combine with OR; each lacks a `WITH CHECK`, so Postgres applies
its `USING` expression both to the existing row and to the updated
row. -/
def expenseUpdatePermitted (actor : Profile) (oldRow newRow : ExpenseRow) : Bool :=
  (ownPending actor.id oldRow || isAdminActor actor)
    && (ownPending actor.id newRow || isAdminActor actor)

/-- The two status-changing actions the application offers
(`approveExpense` and `rejectExpense` on the expenses page). -/
inductive AdminAction
  | approve
  | reject (reason : String)
deriving DecidableEq, Repr

/-- The row update each action performs. -/
def applyAction (a : AdminAction) (e : ExpenseRow) : ExpenseRow :=
  match a with
  | .approve => { e with status := .APPROVED }
  | .reject _ => { e with status := .REJECTED }

/-- The UI gate on the approve/reject buttons:
`profile?.role === 'ADMIN' && expense.status === 'PENDING'`. -/
def uiActionAvailable (actor : Profile) (e : ExpenseRow) : Bool :=
  isAdminActor actor && e.status == ExpenseStatus.PENDING

/-- An actor is permitted by the system to perform a status-changing
action when the application offers it the action and the row-level
policies accept the resulting update. -/
def statusTransitionAllowed (actor : Profile) (e : ExpenseRow) (a : AdminAction) : Bool :=
  uiActionAvailable actor e && expenseUpdatePermitted actor e (applyAction a e)

/-! ## Rate-limiter store: reachable states and invariants -/

/-- Stores reachable at runtime: empty at process start, mutated only by
`isRateLimited` calls. -/
inductive Reachable : RateStore → Prop
  | empty : Reachable emptyStore
  | step (s : RateStore) (ip ep : String) (now : Int) :
      Reachable s → Reachable (isRateLimited s ip ep now).2

/-- The store invariant: every stored entry has a count between 1 and
the `maxRequests` of the rule configured for an endpoint its key
encodes (keys have the shape `clientIP ++ ":" ++ endpoint`; a decomposition
realising the bound is exhibited, since a key containing several colons
decomposes in more than one way). -/
def StoreInv (s : RateStore) : Prop :=
  ∀ k e, s k = some e →
    1 ≤ e.count ∧
    ∃ ip ep, k = getRateLimitKey ip ep ∧ e.count ≤ (ruleFor ep).maxRequests

/-- The effect of one `isRateLimited` call on the store: it either
creates (or resets) the entry of its key with count 1, increments an
existing un-expired entry staying within the endpoint's `maxRequests`,
or leaves the store unchanged. -/
def StepShape (s : RateStore) (ip ep : String) (now : Int) : Prop :=
  (isRateLimited s ip ep now).2
      = s.set (getRateLimitKey ip ep) ⟨1, now + (ruleFor ep).windowMs⟩
  ∨ (∃ e, s (getRateLimitKey ip ep) = some e
        ∧ e.count < (ruleFor ep).maxRequests
        ∧ e.count + 1 ≤ (ruleFor ep).maxRequests
        ∧ (isRateLimited s ip ep now).2
            = s.set (getRateLimitKey ip ep) ⟨e.count + 1, e.resetTime⟩)
  ∨ (isRateLimited s ip ep now).2 = s

/-! ## Helper lemmas: rate-limiter configuration -/

theorem one_le_maxRequests (ep : String) : 1 ≤ (ruleFor ep).maxRequests := by
  unfold ruleFor rateLimitConfig
  repeat' split
  all_goals decide

theorem windowMs_cases (ep : String) :
    (ruleFor ep).windowMs = 60000 ∨ (ruleFor ep).windowMs = 300000 := by
  unfold ruleFor rateLimitConfig
  repeat' split
  all_goals simp

/-! ## Helper lemmas: store updates and `isRateLimited` case analysis -/

theorem RateStore.set_self (s : RateStore) (k : String) (e : RLEntry) :
    (s.set k e) k = some e := by
  simp [RateStore.set]

theorem RateStore.set_other (s : RateStore) (k : String) (e : RLEntry)
    (k' : String) (h : k' ≠ k) : (s.set k e) k' = s k' := by
  simp [RateStore.set, h]

theorem isRateLimited_fresh (s : RateStore) (ip ep : String) (now : Int)
    (h : s (getRateLimitKey ip ep) = none) :
    isRateLimited s ip ep now
      = (⟨false, none, none⟩,
          s.set (getRateLimitKey ip ep) ⟨1, now + (ruleFor ep).windowMs⟩) := by
  simp only [isRateLimited, h]

theorem isRateLimited_expired (s : RateStore) (ip ep : String) (now : Int)
    (e : RLEntry) (h : s (getRateLimitKey ip ep) = some e)
    (hx : e.resetTime < now) :
    isRateLimited s ip ep now
      = (⟨false, none, none⟩,
          s.set (getRateLimitKey ip ep) ⟨1, now + (ruleFor ep).windowMs⟩) := by
  simp only [isRateLimited, h]
  rw [if_pos hx]

theorem isRateLimited_increment (s : RateStore) (ip ep : String) (now : Int)
    (e : RLEntry) (h : s (getRateLimitKey ip ep) = some e)
    (hx : ¬ e.resetTime < now) (hc : e.count < (ruleFor ep).maxRequests) :
    isRateLimited s ip ep now
      = (⟨false, none, none⟩,
          s.set (getRateLimitKey ip ep) ⟨e.count + 1, e.resetTime⟩) := by
  simp only [isRateLimited, h]
  rw [if_neg hx, if_pos hc]

theorem isRateLimited_limited (s : RateStore) (ip ep : String) (now : Int)
    (e : RLEntry) (h : s (getRateLimitKey ip ep) = some e)
    (hx : ¬ e.resetTime < now) (hc : ¬ e.count < (ruleFor ep).maxRequests) :
    isRateLimited s ip ep now
      = (⟨true, some (ruleFor ep).message, some e.resetTime⟩, s) := by
  simp only [isRateLimited, h]
  rw [if_neg hx, if_neg hc]

theorem stepCall_fresh (s : RateStore) (ip ep : String) (now : Int)
    (h : s (getRateLimitKey ip ep) = none) :
    stepCall s ip ep now
      = (⟨200, false, none⟩,
          s.set (getRateLimitKey ip ep) ⟨1, now + (ruleFor ep).windowMs⟩) := by
  simp [stepCall, isRateLimited_fresh s ip ep now h]

theorem stepCall_increment (s : RateStore) (ip ep : String) (now : Int)
    (e : RLEntry) (h : s (getRateLimitKey ip ep) = some e)
    (hx : ¬ e.resetTime < now) (hc : e.count < (ruleFor ep).maxRequests) :
    stepCall s ip ep now
      = (⟨200, false, none⟩,
          s.set (getRateLimitKey ip ep) ⟨e.count + 1, e.resetTime⟩) := by
  simp [stepCall, isRateLimited_increment s ip ep now e h hx hc]

theorem stepCall_limited (s : RateStore) (ip ep : String) (now : Int)
    (e : RLEntry) (h : s (getRateLimitKey ip ep) = some e)
    (hx : ¬ e.resetTime < now) (hc : ¬ e.count < (ruleFor ep).maxRequests) :
    stepCall s ip ep now
      = (⟨429, true, some (ceilSecondsOfMs (e.resetTime - now))⟩, s) := by
  simp [stepCall, isRateLimited_limited s ip ep now e h hx hc]

/-- The response `runCalls` produces for the `i`-th request when the
current count is `k`: once `k` reaches `maxRequests` the request is
limited and carries the `Retry-After` seconds for its own timestamp. -/
def expectedResp (maxReq k : Nat) (t rt : Int) : ServeResponse :=
  if maxReq ≤ k then ⟨429, true, some (ceilSecondsOfMs (rt - t))⟩
  else ⟨200, false, none⟩

/-- Within one window (all timestamps at or before the stored
`resetTime`), starting from a store whose entry for the key has count
`c` with `1 ≤ c ≤ maxRequests`, the `i`-th subsequent call behaves as
`expectedResp` at count `c + i`. -/
theorem runCalls_inWindow (ip ep : String) (rt : Int) :
    ∀ (ts : List Int) (s : RateStore) (c : Nat),
      s (getRateLimitKey ip ep) = some ⟨c, rt⟩ →
      1 ≤ c → c ≤ (ruleFor ep).maxRequests →
      (∀ t ∈ ts, t ≤ rt) →
      ∀ i t, ts.get? i = some t →
        (runCalls ip ep s ts).1.get? i
          = some (expectedResp (ruleFor ep).maxRequests (c + i) t rt) := by
  intro ts
  induction ts with
  | nil =>
      intro s c _ _ _ _ i t hit
      simp at hit
  | cons t0 rest ih =>
      intro s c hs hc1 hcN hin i t hit
      have ht0 : t0 ≤ rt := hin t0 (by simp)
      have hx : ¬ ((⟨c, rt⟩ : RLEntry).resetTime < t0) := not_lt.mpr ht0
      by_cases hlt : c < (ruleFor ep).maxRequests
      · have hstep := stepCall_increment s ip ep t0 ⟨c, rt⟩ hs hx hlt
        have hkey : (s.set (getRateLimitKey ip ep) ⟨c + 1, rt⟩)
            (getRateLimitKey ip ep) = some ⟨c + 1, rt⟩ :=
          RateStore.set_self s (getRateLimitKey ip ep) ⟨c + 1, rt⟩
        cases i with
        | zero =>
            have h0 : t0 = t := by simpa using hit
            subst h0
            simp [runCalls, hstep, expectedResp, Nat.not_le.mpr hlt]
        | succ j =>
            have hit' : rest.get? j = some t := by simpa using hit
            have hrec := ih (s.set (getRateLimitKey ip ep) ⟨c + 1, rt⟩) (c + 1)
              hkey (Nat.le_succ_of_le hc1) hlt
              (fun u hu => hin u (List.mem_cons_of_mem _ hu)) j t hit'
            have harith : c + 1 + j = c + (j + 1) := by omega
            simp only [runCalls, hstep, List.get?_cons_succ]
            rw [← harith]
            exact hrec
      · have hceq : c = (ruleFor ep).maxRequests := le_antisymm hcN (not_lt.mp hlt)
        have hstep := stepCall_limited s ip ep t0 ⟨c, rt⟩ hs hx hlt
        cases i with
        | zero =>
            have h0 : t0 = t := by simpa using hit
            subst h0
            simp [runCalls, hstep, expectedResp, hceq]
        | succ j =>
            have hit' : rest.get? j = some t := by simpa using hit
            have hrec := ih s c hs hc1 hcN
              (fun u hu => hin u (List.mem_cons_of_mem _ hu)) j t hit'
            have hexp : expectedResp (ruleFor ep).maxRequests (c + j) t rt
                = expectedResp (ruleFor ep).maxRequests (c + (j + 1)) t rt := by
              simp [expectedResp, hceq, Nat.le_add_right]
            simp only [runCalls, hstep, List.get?_cons_succ]
            rw [← hexp]
            exact hrec

theorem runCalls_length (ip ep : String) :
    ∀ (ts : List Int) (s : RateStore), ((runCalls ip ep s ts).1).length = ts.length := by
  intro ts
  induction ts with
  | nil => intro s; rfl
  | cons t rest ih => intro s; simp [runCalls, ih]

theorem ceilSecondsOfMs_bounds (ep : String) (x : Int) (h0 : 0 ≤ x)
    (h1 : x ≤ (ruleFor ep).windowMs) :
    0 ≤ ceilSecondsOfMs x ∧ ceilSecondsOfMs x * 1000 ≤ (ruleFor ep).windowMs := by
  rcases windowMs_cases ep with h | h <;> rw [h] at h1 ⊢ <;> unfold ceilSecondsOfMs <;>
    constructor <;> omega

/-- Claim C2: Starting from an empty counter store, for any (client IP,
endpoint) key with rule `(maxRequests, windowMs)` and any sequence of
requests whose timestamps all lie within the window opened by the first
request, the first `maxRequests` requests are answered `limited: false`
(HTTP 200) and every later request in the window is answered
`limited: true` (HTTP 429) with a `Retry-After` value of
`Math.ceil((resetTime - now) / 1000)` seconds that is nonnegative and at
most the window length. -/
theorem c2_fixed_window (ip ep : String) (t0 : Int) (ts : List Int)
    (hts : ∀ t ∈ ts, t0 ≤ t ∧ t ≤ t0 + (ruleFor ep).windowMs) :
    ∀ i r, (runCalls ip ep emptyStore (t0 :: ts)).1.get? i = some r →
      (r.limited = true ↔ (ruleFor ep).maxRequests < i + 1)
      ∧ (r.limited = false → r.status = 200 ∧ r.retryAfter = none)
      ∧ (r.limited = true → r.status = 429 ∧
          ∃ ra, r.retryAfter = some ra ∧ 0 ≤ ra
            ∧ ra * 1000 ≤ (ruleFor ep).windowMs) := by
  intro i r hr
  have hfresh : emptyStore (getRateLimitKey ip ep) = none := rfl
  have h1 := stepCall_fresh emptyStore ip ep t0 hfresh
  have hNpos := one_le_maxRequests ep
  cases i with
  | zero =>
      have hr0 : r = ⟨200, false, none⟩ := by
        rw [show (runCalls ip ep emptyStore (t0 :: ts)).1
            = ⟨200, false, none⟩ ::
              (runCalls ip ep
                (emptyStore.set (getRateLimitKey ip ep)
                  ⟨1, t0 + (ruleFor ep).windowMs⟩) ts).1 by simp [runCalls, h1]] at hr
        simpa using hr.symm
      subst hr0
      refine ⟨by simpa using by omega, fun _ => ⟨rfl, rfl⟩, by simp⟩
  | succ j =>
      have hr' : (runCalls ip ep
          (emptyStore.set (getRateLimitKey ip ep)
            ⟨1, t0 + (ruleFor ep).windowMs⟩) ts).1.get? j = some r := by
        rw [show (runCalls ip ep emptyStore (t0 :: ts)).1
            = ⟨200, false, none⟩ ::
              (runCalls ip ep
                (emptyStore.set (getRateLimitKey ip ep)
                  ⟨1, t0 + (ruleFor ep).windowMs⟩) ts).1 by simp [runCalls, h1]] at hr
        simpa using hr
      obtain ⟨t, ht⟩ : ∃ t, ts.get? j = some t := by
        cases hmem : ts.get? j with
        | none =>
            exfalso
            have hlen : ts.length ≤ j := List.get?_eq_none.mp hmem
            have : (runCalls ip ep
                (emptyStore.set (getRateLimitKey ip ep)
                  ⟨1, t0 + (ruleFor ep).windowMs⟩) ts).1.get? j = none := by
              refine List.get?_eq_none.mpr ?_
              rw [runCalls_length]
              exact hlen
            rw [this] at hr'
            exact Option.noConfusion hr'
        | some t => exact ⟨t, rfl⟩
      have hq := runCalls_inWindow ip ep (t0 + (ruleFor ep).windowMs) ts
        (emptyStore.set (getRateLimitKey ip ep) ⟨1, t0 + (ruleFor ep).windowMs⟩) 1
        (RateStore.set_self _ _ _) le_rfl hNpos
        (fun u hu => (hts u hu).2) j t ht
      have hreq : r = expectedResp (ruleFor ep).maxRequests (1 + j) t
          (t0 + (ruleFor ep).windowMs) := by
        have := hr'.symm.trans hq
        exact Option.some.inj this
      have htw := hts t (List.get?_mem ht)
      by_cases hN : (ruleFor ep).maxRequests ≤ 1 + j
      · have hrval : r = ⟨429, true,
            some (ceilSecondsOfMs (t0 + (ruleFor ep).windowMs - t))⟩ := by
          rw [hreq]; simp [expectedResp, hN]
        subst hrval
        have hb := ceilSecondsOfMs_bounds ep (t0 + (ruleFor ep).windowMs - t)
          (by omega) (by omega)
        refine ⟨by simpa using by omega, by simp, fun _ => ⟨rfl, ?_⟩⟩
        exact ⟨_, rfl, hb.1, hb.2⟩
      · have hrval : r = ⟨200, false, none⟩ := by
          rw [hreq]; simp [expectedResp, hN]
        subst hrval
        refine ⟨by simpa using by omega, fun _ => ⟨rfl, rfl⟩, by simp⟩

/-- Claim C2 witness: For the `/auth/signup` endpoint (3 requests per 5
minutes) and four requests at times 0, 1, 2, 3 from the empty store, the
fourth request (index 3) is limited with status 429 and retry-after 300
seconds ≤ 300 (the window in seconds). -/
theorem c2_fixed_window_witness :
    ((⟨429, true, some 300⟩ : ServeResponse).limited = true
        ↔ (ruleFor "/auth/signup").maxRequests < 3 + 1)
    ∧ ((⟨429, true, some 300⟩ : ServeResponse).limited = false
        → (⟨429, true, some 300⟩ : ServeResponse).status = 200
          ∧ (⟨429, true, some 300⟩ : ServeResponse).retryAfter = none)
    ∧ ((⟨429, true, some 300⟩ : ServeResponse).limited = true
        → (⟨429, true, some 300⟩ : ServeResponse).status = 429 ∧
          ∃ ra, (⟨429, true, some 300⟩ : ServeResponse).retryAfter = some ra
            ∧ 0 ≤ ra ∧ ra * 1000 ≤ (ruleFor "/auth/signup").windowMs) :=
  c2_fixed_window "9.9.9.9" "/auth/signup" 0 [1, 2, 3] (by decide)
    3 ⟨429, true, some 300⟩ (by decide)

theorem stepShape_all (s : RateStore) (ip ep : String) (now : Int) :
    StepShape s ip ep now := by
  unfold StepShape
  cases hk : s (getRateLimitKey ip ep) with
  | none =>
      left
      rw [isRateLimited_fresh s ip ep now hk]
  | some e =>
      by_cases hx : e.resetTime < now
      · left
        rw [isRateLimited_expired s ip ep now e hk hx]
      · by_cases hc : e.count < (ruleFor ep).maxRequests
        · exact Or.inr (Or.inl ⟨e, rfl, hc, by omega,
            by rw [isRateLimited_increment s ip ep now e hk hx hc]⟩)
        · exact Or.inr (Or.inr
            (by rw [isRateLimited_limited s ip ep now e hk hx hc]))

/-- Claim C10: Every store reachable from the empty store through
`isRateLimited` calls satisfies the invariant: each stored entry has
`1 ≤ count`, and `count` is at most the `maxRequests` of the rule for an
endpoint encoded in its key; moreover every call either creates an entry
with count 1, increments an entry staying within the endpoint's
`maxRequests`, or leaves the store unchanged. -/
theorem c10_store_invariant :
    ∀ s, Reachable s → StoreInv s ∧ ∀ ip ep now, StepShape s ip ep now := by
  intro s hs
  refine ⟨?_, fun ip ep now => stepShape_all s ip ep now⟩
  induction hs with
  | empty =>
      intro k e hk
      simp [emptyStore] at hk
  | step s0 ip ep now hs0 ih =>
      intro k e hk
      rcases stepShape_all s0 ip ep now with hcase | ⟨e0, he0, hlt, hle, hcase⟩ | hcase
      · rw [hcase] at hk
        by_cases hkk : k = getRateLimitKey ip ep
        · subst hkk
          rw [RateStore.set_self] at hk
          obtain rfl : (⟨1, now + (ruleFor ep).windowMs⟩ : RLEntry) = e :=
            Option.some.inj hk
          exact ⟨le_rfl, ip, ep, rfl, one_le_maxRequests ep⟩
        · rw [RateStore.set_other _ _ _ _ hkk] at hk
          exact ih k e hk
      · rw [hcase] at hk
        by_cases hkk : k = getRateLimitKey ip ep
        · subst hkk
          rw [RateStore.set_self] at hk
          obtain rfl : (⟨e0.count + 1, e0.resetTime⟩ : RLEntry) = e :=
            Option.some.inj hk
          exact ⟨by simp, ip, ep, rfl, hle⟩
        · rw [RateStore.set_other _ _ _ _ hkk] at hk
          exact ih k e hk
      · rw [hcase] at hk
        exact ih k e hk

/-- Claim C10 witness: The invariant holds at the concrete reachable
store obtained by one `/auth/signin` call from the empty store. -/
theorem c10_store_invariant_witness :
    StoreInv (isRateLimited emptyStore "1.2.3.4" "/auth/signin" 0).2
    ∧ ∀ ip ep now,
        StepShape (isRateLimited emptyStore "1.2.3.4" "/auth/signin" 0).2 ip ep now :=
  c10_store_invariant _
    (Reachable.step emptyStore "1.2.3.4" "/auth/signin" 0 Reachable.empty)

/-- The client-IP derivation as the claim words it: the *first present*
of the `x-forwarded-for` or `x-real-ip` headers, else the literal
`'unknown'`.  (The code instead uses JS `||`, for which an empty header
value is falsy and falls through — compare `clientIPOf`.) -/
def claimClientIP (xff xri : Option String) : String :=
  match xff with
  | some s => s
  | none =>
      match xri with
      | some s => s
      | none => "unknown"

/-- Claim C9 counterexample: Two requests that agree on the
claim-derived key (both have `x-forwarded-for` present with the empty
value, so the claimed key is `":/x"`), on the store and on the clock,
but whose `x-real-ip` headers differ, receive different decisions:
with an entry `a:/x` already at the default limit of 30, the request
with `x-real-ip: a` is answered 429 and the one with `x-real-ip: b` is
answered 200.  Hence the decision is not a function of the claimed key,
store and clock. -/
theorem c9_counterexample :
    claimClientIP (some "") (some "a") = claimClientIP (some "") (some "b")
    ∧ (serveRateLimiter (emptyStore.set "a:/x" ⟨30, 1000000⟩)
        (some "") (some "a") "/x" 0).1.status = 429
    ∧ (serveRateLimiter (emptyStore.set "a:/x" ⟨30, 1000000⟩)
        (some "") (some "b") "/x" 0).1.status = 200 := by
  refine ⟨rfl, ?_, ?_⟩ <;> decide

/-- Claim C9 (amended): The rate-limiter decision for a request is a
function only of the derived key — the first of the `x-forwarded-for`
and `x-real-ip` headers that is present with a non-empty value, else
the literal `'unknown'`, paired with the URL pathname — the store state
and the clock: two requests agreeing on that derived client IP and
pathname receive identical decisions from the same store and clock, and
all requests lacking both headers share the single counter keyed
`unknown:<endpoint>`. -/
theorem c9_key_determines_decision :
    (∀ (s : RateStore) (now : Int) (path : String) (xff xri xff' xri' : Option String),
        clientIPOf xff xri = clientIPOf xff' xri' →
        serveRateLimiter s xff xri path now = serveRateLimiter s xff' xri' path now)
    ∧ (∀ path : String,
        getRateLimitKey (clientIPOf none none) path = "unknown:" ++ path) := by
  constructor
  · intro s now path xff xri xff' xri' h
    simp only [serveRateLimiter, h]
  · intro path
    rfl

/-- Claim C9 (amended) witness: Two concrete requests with different
header pairs but the same derived client IP get the same decision. -/
theorem c9_key_determines_decision_witness :
    serveRateLimiter emptyStore (some "1.1.1.1") none "/x" 0
      = serveRateLimiter emptyStore (some "1.1.1.1") (some "2.2.2.2") "/x" 0 :=
  c9_key_determines_decision.1 emptyStore 0 "/x"
    (some "1.1.1.1") none (some "1.1.1.1") (some "2.2.2.2") (by decide)

/-! ## Helper lemmas: post-processing fields -/

theorem fixAmounts_gross (r : AnalysisResult) :
    (fixAmounts r).amount_gross = r.amount_gross := by
  simp only [fixAmounts]
  split <;> rfl

theorem fixAmounts_vat (r : AnalysisResult) :
    (fixAmounts r).tax_vat = r.tax_vat := by
  simp only [fixAmounts]
  split <;> rfl

theorem fixAmounts_net (r : AnalysisResult) :
    (fixAmounts r).amount_net
      = (if jsAbs (r.amount_net + r.tax_vat - r.amount_gross) > 1/100
          then r.amount_gross - r.tax_vat else r.amount_net) := by
  simp only [fixAmounts]
  split <;> rfl

theorem fixAmounts_vendor (r : AnalysisResult) :
    (fixAmounts r).vendor = r.vendor := by
  simp only [fixAmounts]
  split <;> rfl

theorem fixVendor_gross (r : AnalysisResult) :
    (fixVendor r).amount_gross = r.amount_gross := by
  simp only [fixVendor]
  split <;> rfl

theorem fixVendor_vat (r : AnalysisResult) :
    (fixVendor r).tax_vat = r.tax_vat := by
  simp only [fixVendor]
  split <;> rfl

theorem fixVendor_net (r : AnalysisResult) :
    (fixVendor r).amount_net = r.amount_net := by
  simp only [fixVendor]
  split <;> rfl

theorem fixVendor_vendor (r : AnalysisResult) :
    (fixVendor r).vendor
      = cleanVendor (if (jsTrim r.vendor).length = 0
          then "Comercio no identificado" else r.vendor) := by
  simp only [fixVendor]
  split <;> rfl

theorem fixDate_gross (today : String) (r : AnalysisResult) :
    (fixDate today r).amount_gross = r.amount_gross := by
  simp only [fixDate]
  split <;> rfl

theorem fixDate_vat (today : String) (r : AnalysisResult) :
    (fixDate today r).tax_vat = r.tax_vat := by
  simp only [fixDate]
  split <;> rfl

theorem fixDate_net (today : String) (r : AnalysisResult) :
    (fixDate today r).amount_net = r.amount_net := by
  simp only [fixDate]
  split <;> rfl

theorem fixDate_vendor (today : String) (r : AnalysisResult) :
    (fixDate today r).vendor = r.vendor := by
  simp only [fixDate]
  split <;> rfl

theorem fixCurrency_gross (r : AnalysisResult) :
    (fixCurrency r).amount_gross = r.amount_gross := by
  simp only [fixCurrency]
  split <;> rfl

theorem fixCurrency_vat (r : AnalysisResult) :
    (fixCurrency r).tax_vat = r.tax_vat := by
  simp only [fixCurrency]
  split <;> rfl

theorem fixCurrency_net (r : AnalysisResult) :
    (fixCurrency r).amount_net = r.amount_net := by
  simp only [fixCurrency]
  split <;> rfl

theorem fixCurrency_vendor (r : AnalysisResult) :
    (fixCurrency r).vendor = r.vendor := by
  simp only [fixCurrency]
  split <;> rfl

theorem postProcess_amounts (today : String) (r : AnalysisResult) :
    (postProcess today r).amount_gross = r.amount_gross
    ∧ (postProcess today r).tax_vat = r.tax_vat
    ∧ (postProcess today r).amount_net
        = (if jsAbs (r.amount_net + r.tax_vat - r.amount_gross) > 1/100
            then r.amount_gross - r.tax_vat else r.amount_net) := by
  unfold postProcess
  rw [fixCurrency_gross, fixDate_gross, fixVendor_gross, fixAmounts_gross,
    fixCurrency_vat, fixDate_vat, fixVendor_vat, fixAmounts_vat,
    fixCurrency_net, fixDate_net, fixVendor_net, fixAmounts_net]
  exact ⟨rfl, rfl, rfl⟩

theorem postProcess_vendor (today : String) (r : AnalysisResult) :
    (postProcess today r).vendor
      = cleanVendor (if (jsTrim r.vendor).length = 0
          then "Comercio no identificado" else r.vendor) := by
  unfold postProcess
  rw [fixCurrency_vendor, fixDate_vendor, fixVendor_vendor, fixAmounts_vendor]

/-- A response of the handler with `success: true` can only come from
the `ok` branch, and its `data` is the post-processed model output. -/
theorem analyzeReceipt_success (k : Bool) (f : Option FileUpload)
    (ai : AIOutcome) (today : String)
    (h : (analyzeReceipt k f ai today).success = some true) :
    ∃ r, ai = .ok r
      ∧ (analyzeReceipt k f ai today).data = some (postProcess today r) := by
  cases k with
  | false => simp [analyzeReceipt] at h
  | true =>
      cases f with
      | none => simp [analyzeReceipt] at h
      | some file =>
          by_cases h1 : file.mimeType ∈ allowedTypes
          · by_cases h2 : file.size > maxSize
            · simp [analyzeReceipt, h1, h2] at h
            · cases ai with
              | ok r => exact ⟨r, rfl, by simp [analyzeReceipt, h1, h2]⟩
              | httpError st => simp [analyzeReceipt, h1, h2] at h
              | noText => simp [analyzeReceipt, h1, h2] at h
              | badJson => simp [analyzeReceipt, h1, h2] at h
          · simp [analyzeReceipt, h1] at h

set_option maxHeartbeats 1600000 in
/-- Claim C1: Every result the analyze-receipt function returns with
`success: true` satisfies `|amount_net + tax_vat - amount_gross| ≤ 0.01`
(in particular for every model output with positive `amount_gross`);
and whenever the model's values diverge by more than 0.01,
post-processing recomputes `amount_net` as `amount_gross - tax_vat`. -/
theorem c1_financial_coherence :
    (∀ (hasApiKey : Bool) (file? : Option FileUpload) (ai : AIOutcome)
        (today : String) (d : AnalysisResult),
        (analyzeReceipt hasApiKey file? ai today).success = some true →
        (analyzeReceipt hasApiKey file? ai today).data = some d →
        0 < d.amount_gross →
        |d.amount_net + d.tax_vat - d.amount_gross| ≤ 1/100)
    ∧ (∀ (r : AnalysisResult) (today : String),
        |r.amount_net + r.tax_vat - r.amount_gross| > 1/100 →
        (postProcess today r).amount_net = r.amount_gross - r.tax_vat) := by
  constructor
  · intro k f ai today d hs hd hpos
    obtain ⟨r, rfl, hdata⟩ := analyzeReceipt_success k f ai today hs
    have hd2 : d = postProcess today r := by
      rw [hd] at hdata
      exact Option.some.inj hdata
    subst hd2
    obtain ⟨hg, hv, hn⟩ := postProcess_amounts today r
    rw [hg, hv, hn]
    by_cases hdiff : jsAbs (r.amount_net + r.tax_vat - r.amount_gross) > 1/100
    · rw [if_pos hdiff]
      have h0 : r.amount_gross - r.tax_vat + r.tax_vat - r.amount_gross = (0 : ℚ) := by
        ring
      rw [h0, abs_zero]
      norm_num
    · rw [if_neg hdiff]
      rw [jsAbs_eq_abs] at hdiff
      exact not_lt.mp hdiff
  · intro r today h
    obtain ⟨_, _, hn⟩ := postProcess_amounts today r
    rw [hn, if_pos (by rwa [jsAbs_eq_abs])]

set_option maxHeartbeats 1600000 in
/-- Claim C1 witness: A coherent output (100 + 0 vs 100) stays within
0.01 through the handler, and a divergent one (100 + 21 vs 100)
gets its net recomputed to 100 − 21. -/
theorem c1_financial_coherence_witness :
    ((0 : ℚ) < 100)
    ∧ |(100 : ℚ) + 0 - 100| ≤ 1/100
    ∧ |(100 : ℚ) + 21 - 100| > 1/100
    ∧ (postProcess "2025-01-01"
        ⟨"V", "2025-01-02", 100, 21, 100, "EUR", "Otros", "CARD", none, none⟩).amount_net
      = 100 - 21 := by
  have habs : |(100 : ℚ) + 21 - 100| > 1/100 := by
    rw [abs_of_nonneg (by norm_num : (0 : ℚ) ≤ 100 + 21 - 100)]
    norm_num
  refine ⟨by norm_num, ?_, habs, ?_⟩
  · exact c1_financial_coherence.1 true (some ⟨"f.png", "image/png", 1⟩)
      (.ok ⟨"V", "2025-01-01", 100, 0, 100, "EUR", "Otros", "CARD", none, none⟩)
      "2025-01-01" ⟨"V", "2025-01-01", 100, 0, 100, "EUR", "Otros", "CARD", none, none⟩
      (by decide)
      (by norm_num [analyzeReceipt, allowedTypes, maxSize, postProcess, fixAmounts,
            fixVendor, fixDate, fixCurrency, jsAbs, cleanVendor, jsTrim,
            keptVendorChar, isIsoDateShape]; decide)
      (by norm_num)
  · exact c1_financial_coherence.2
      ⟨"V", "2025-01-02", 100, 21, 100, "EUR", "Otros", "CARD", none, none⟩
      "2025-01-01" habs

/-- Claim C4: A request whose file has a MIME type outside
{`image/jpeg`, `image/jpg`, `image/png`, `application/pdf`} or a size
above 10·1024·1024 bytes is answered HTTP 400 with a JSON error body and
the Gemini endpoint is never called; a file of an allowed type with size
≤ 10MB passes this validation and the handler proceeds to the single
upstream call. -/
theorem c4_file_validation :
    ∀ (file : FileUpload) (ai : AIOutcome) (today : String),
      (file.mimeType ∉ allowedTypes ∨ maxSize < file.size →
        (analyzeReceipt true (some file) ai today).status = 400
        ∧ (analyzeReceipt true (some file) ai today).hasError = true
        ∧ (analyzeReceipt true (some file) ai today).aiCalls = 0)
      ∧ (file.mimeType ∈ allowedTypes → file.size ≤ maxSize →
        (analyzeReceipt true (some file) ai today).aiCalls = 1) := by
  intro file ai today
  constructor
  · rintro (h | h)
    · simp [analyzeReceipt, h]
    · by_cases h1 : file.mimeType ∈ allowedTypes
      · simp [analyzeReceipt, h1, h]
      · simp [analyzeReceipt, h1]
  · intro h1 h2
    have h2' : ¬ (file.size > maxSize) := not_lt.mpr h2
    cases ai <;> simp [analyzeReceipt, h1, h2']

/-- Claim C4 witness: A `text/plain` upload is rejected with 400 and no
AI call; a small PNG passes validation and triggers exactly one AI
call. -/
theorem c4_file_validation_witness :
    ((analyzeReceipt true (some ⟨"a.txt", "text/plain", 5⟩) .noText "t").status = 400
      ∧ (analyzeReceipt true (some ⟨"a.txt", "text/plain", 5⟩) .noText "t").hasError = true
      ∧ (analyzeReceipt true (some ⟨"a.txt", "text/plain", 5⟩) .noText "t").aiCalls = 0)
    ∧ (analyzeReceipt true (some ⟨"a.png", "image/png", 5⟩) .noText "t").aiCalls = 1 :=
  ⟨(c4_file_validation ⟨"a.txt", "text/plain", 5⟩ .noText "t").1 (Or.inl (by decide)),
    (c4_file_validation ⟨"a.png", "image/png", 5⟩ .noText "t").2 (by decide) (by decide)⟩

/-- Claim C7: When the upstream AI call returns a non-OK response,
produces no generated text, or produces unparseable JSON, the handler
returns one HTTP 500 response with body `{success: false, error: ...}`
and the upstream endpoint was called exactly once (no retry). -/
theorem c7_upstream_failure :
    ∀ (file : FileUpload) (today : String) (ai : AIOutcome),
      file.mimeType ∈ allowedTypes → file.size ≤ maxSize →
      (∀ r, ai ≠ AIOutcome.ok r) →
      analyzeReceipt true (some file) ai today = ⟨500, some false, none, true, 1⟩ := by
  intro file today ai h1 h2 hok
  have h2' : ¬ (file.size > maxSize) := not_lt.mpr h2
  cases ai with
  | ok r => exact absurd rfl (hok r)
  | httpError st => simp [analyzeReceipt, h1, h2']
  | noText => simp [analyzeReceipt, h1, h2']
  | badJson => simp [analyzeReceipt, h1, h2']

/-- Claim C7 witness: A valid PNG upload whose upstream answer is
unparseable JSON yields exactly the single 500 failure response. -/
theorem c7_upstream_failure_witness :
    analyzeReceipt true (some ⟨"a.png", "image/png", 5⟩) .badJson "t"
      = ⟨500, some false, none, true, 1⟩ :=
  c7_upstream_failure ⟨"a.png", "image/png", 5⟩ "t" .badJson (by decide) (by decide)
    (fun r h => AIOutcome.noConfusion h)

/-- The vendor cleanup as the claim words it: *all non-alphanumeric
characters stripped*, truncated to 100 characters.  (The code instead
keeps underscores, whitespace, hyphens and periods — compare
`cleanVendor`.) -/
def claimVendor (v : String) : String :=
  String.mk ((v.data.filter Char.isAlphanum).take 100)

/-- Claim C5 counterexample: For the model vendor `"A b_c-d.e!"` the
handler returns vendor `"A b_c-d.e"` (spaces, underscore, hyphen and
period kept, `!` stripped), while stripping all non-alphanumeric
characters as the claim states would give `"Abcde"`. -/
theorem c5_counterexample :
    ((analyzeReceipt true (some ⟨"f.png", "image/png", 1⟩)
        (.ok ⟨"A b_c-d.e!", "2025-01-01", 100, 0, 100, "EUR", "Otros", "CARD", none, none⟩)
        "2025-01-02").data.map AnalysisResult.vendor) = some "A b_c-d.e"
    ∧ claimVendor "A b_c-d.e!" = "Abcde"
    ∧ ("A b_c-d.e" : String) ≠ "Abcde" := by
  refine ⟨?_, by decide, by decide⟩
  norm_num [analyzeReceipt, allowedTypes, maxSize, postProcess, fixAmounts,
    fixVendor, fixDate, fixCurrency, jsAbs, cleanVendor, jsTrim,
    keptVendorChar, isIsoDateShape]
  decide

/-- Claim C5 (amended): For every successful analyze-receipt result, the
returned vendor equals the model's vendor trimmed, with every character
other than word characters (letters, digits, underscore), whitespace,
hyphen and period removed, truncated to at most 100 characters; a blank
vendor is first replaced by the placeholder `"Comercio no
identificado"`. -/
theorem c5_vendor_cleanup :
    ∀ (r : AnalysisResult) (file : FileUpload) (today : String),
      file.mimeType ∈ allowedTypes → file.size ≤ maxSize →
      ((analyzeReceipt true (some file) (.ok r) today).data.map AnalysisResult.vendor)
        = some (cleanVendor (if (jsTrim r.vendor).length = 0
            then "Comercio no identificado" else r.vendor)) := by
  intro r file today h1 h2
  have h2' : ¬ (file.size > maxSize) := not_lt.mpr h2
  simp [analyzeReceipt, h1, h2', postProcess_vendor]

/-- Claim C5 (amended) witness: The handler maps vendor `"A b_c-d.e!"`
to the cleaned non-blank vendor. -/
theorem c5_vendor_cleanup_witness :
    ((analyzeReceipt true (some ⟨"g.png", "image/png", 2⟩)
        (.ok ⟨" Caf x!", "2025-01-01", 10, 0, 10, "EUR", "Otros", "CARD", none, none⟩)
        "2025-01-02").data.map AnalysisResult.vendor)
      = some (cleanVendor (if (jsTrim " Caf x!").length = 0
          then "Comercio no identificado" else " Caf x!")) :=
  c5_vendor_cleanup
    ⟨" Caf x!", "2025-01-01", 10, 0, 10, "EUR", "Otros", "CARD", none, none⟩
    ⟨"g.png", "image/png", 2⟩ "2025-01-02" (by decide) (by decide)

/-- Claim C6: Every sign-up submission whose password has fewer than 6
characters sets a validation error and returns before any network call:
`supabase.auth.signUp` is never invoked. -/
theorem c6_short_password :
    ∀ (form : SignUpForm) (rateAllowed : Bool) (rateMessage : String),
      form.password.length < 6 →
      (handleSignUp form rateAllowed rateMessage).error.isSome = true
      ∧ (handleSignUp form rateAllowed rateMessage).networkCalled = false := by
  intro form ra msg h
  by_cases hm : form.password ≠ form.confirmPassword
  · simp [handleSignUp, hm]
  · simp [handleSignUp, hm, h]

/-- Claim C6 witness: A 3-character password is rejected with an error
and no network call. -/
theorem c6_short_password_witness :
    (handleSignUp ⟨"n", "e@x.com", "abc", "abc"⟩ true "m").error.isSome = true
    ∧ (handleSignUp ⟨"n", "e@x.com", "abc", "abc"⟩ true "m").networkCalled = false :=
  c6_short_password ⟨"n", "e@x.com", "abc", "abc"⟩ true "m" (by decide)

/-- Claim C3: A status-changing action the system permits (offered by the
application and accepted by the row-level policies) happens only on a
`PENDING` expense, moves it only to `APPROVED` or `REJECTED`, and only
an `ADMIN`-role actor can perform it; moreover the row-level policies
alone confine every non-admin update to rows that are `PENDING` before
and after, so a non-admin can never change a status at all. -/
theorem c3_status_transitions :
    (∀ (actor : Profile) (e : ExpenseRow) (a : AdminAction),
        statusTransitionAllowed actor e a = true →
        actor.role = Role.ADMIN ∧ e.status = ExpenseStatus.PENDING
        ∧ ((applyAction a e).status = ExpenseStatus.APPROVED
            ∨ (applyAction a e).status = ExpenseStatus.REJECTED))
    ∧ (∀ (actor : Profile) (oldRow newRow : ExpenseRow),
        actor.role ≠ Role.ADMIN →
        expenseUpdatePermitted actor oldRow newRow = true →
        oldRow.status = ExpenseStatus.PENDING
        ∧ newRow.status = ExpenseStatus.PENDING) := by
  constructor
  · intro actor e a h
    simp only [statusTransitionAllowed, uiActionAvailable, isAdminActor,
      Bool.and_eq_true, beq_iff_eq] at h
    obtain ⟨⟨hrole, hstatus⟩, _⟩ := h
    refine ⟨hrole, hstatus, ?_⟩
    cases a with
    | approve => exact Or.inl rfl
    | reject reason => exact Or.inr rfl
  · intro actor oldRow newRow hrole h
    simp only [expenseUpdatePermitted, ownPending, isAdminActor,
      Bool.and_eq_true, Bool.or_eq_true, beq_iff_eq] at h
    obtain ⟨ho, hn⟩ := h
    rcases ho with ⟨_, ho2⟩ | hadmin
    · rcases hn with ⟨_, hn2⟩ | hadmin
      · exact ⟨ho2, hn2⟩
      · exact absurd hadmin hrole
    · exact absurd hadmin hrole

/-- Claim C3 witness: An admin approving a pending expense performs
`PENDING → APPROVED`; an employee whose update the policies accept is
confined to `PENDING → PENDING`. -/
theorem c3_status_transitions_witness :
    ((⟨1, Role.ADMIN⟩ : Profile).role = Role.ADMIN
      ∧ (⟨2, "V", "2025-01-01", 0, 0, none, "EUR", ExpenseSource.MANUAL,
            ExpenseStatus.PENDING⟩ : ExpenseRow).status = ExpenseStatus.PENDING
      ∧ ((applyAction AdminAction.approve
            ⟨2, "V", "2025-01-01", 0, 0, none, "EUR", ExpenseSource.MANUAL,
              ExpenseStatus.PENDING⟩).status = ExpenseStatus.APPROVED
          ∨ (applyAction AdminAction.approve
              ⟨2, "V", "2025-01-01", 0, 0, none, "EUR", ExpenseSource.MANUAL,
                ExpenseStatus.PENDING⟩).status = ExpenseStatus.REJECTED))
    ∧ ((⟨2, "V", "2025-01-01", 0, 0, none, "EUR", ExpenseSource.MANUAL,
          ExpenseStatus.PENDING⟩ : ExpenseRow).status = ExpenseStatus.PENDING
      ∧ (⟨2, "W", "2025-01-02", 0, 0, none, "EUR", ExpenseSource.MANUAL,
          ExpenseStatus.PENDING⟩ : ExpenseRow).status = ExpenseStatus.PENDING) :=
  ⟨c3_status_transitions.1 ⟨1, Role.ADMIN⟩
      ⟨2, "V", "2025-01-01", 0, 0, none, "EUR", ExpenseSource.MANUAL,
        ExpenseStatus.PENDING⟩ AdminAction.approve (by decide),
    c3_status_transitions.2 ⟨2, Role.EMPLOYEE⟩
      ⟨2, "V", "2025-01-01", 0, 0, none, "EUR", ExpenseSource.MANUAL,
        ExpenseStatus.PENDING⟩
      ⟨2, "W", "2025-01-02", 0, 0, none, "EUR", ExpenseSource.MANUAL,
        ExpenseStatus.PENDING⟩ (by decide) (by decide)⟩

/-- Claim C8: Every expense created through the upload flow is inserted
with `status = PENDING` and with `source = AI_EXTRACTED` exactly when
extracted data was applied (`MANUAL` otherwise); and in the concrete
scenario of a receipt analysed to gross = 100, VAT = 0 (net left at 0 by
the model), the post-processed data applied to the form is saved with
net = 100, `source = AI_EXTRACTED`, `status = PENDING`. -/
theorem c8_expense_insert :
    (∀ (uid : Nat) (form : ExpenseForm) (x : Option AnalysisResult),
        (buildExpenseRow uid form x).status = ExpenseStatus.PENDING
        ∧ ((buildExpenseRow uid form x).source = ExpenseSource.AI_EXTRACTED
            ↔ x.isSome = true))
    ∧ (((analyzeReceipt true (some ⟨"r.jpg", "image/jpeg", 1000⟩)
          (.ok ⟨"Shop", "2025-01-01", 100, 0, 0, "EUR", "Otros", "CARD", none, none⟩)
          "2025-01-01").data.map (fun d =>
            buildExpenseRow 7 (applyExtracted ⟨"", "", none, none, none, "EUR"⟩ d)
              (some d))).map ExpenseRow.amount_net = some 100
      ∧ ((analyzeReceipt true (some ⟨"r.jpg", "image/jpeg", 1000⟩)
          (.ok ⟨"Shop", "2025-01-01", 100, 0, 0, "EUR", "Otros", "CARD", none, none⟩)
          "2025-01-01").data.map (fun d =>
            buildExpenseRow 7 (applyExtracted ⟨"", "", none, none, none, "EUR"⟩ d)
              (some d))).map ExpenseRow.source = some ExpenseSource.AI_EXTRACTED
      ∧ ((analyzeReceipt true (some ⟨"r.jpg", "image/jpeg", 1000⟩)
          (.ok ⟨"Shop", "2025-01-01", 100, 0, 0, "EUR", "Otros", "CARD", none, none⟩)
          "2025-01-01").data.map (fun d =>
            buildExpenseRow 7 (applyExtracted ⟨"", "", none, none, none, "EUR"⟩ d)
              (some d))).map ExpenseRow.status = some ExpenseStatus.PENDING) := by
  constructor
  · intro uid form x
    refine ⟨rfl, ?_⟩
    cases x <;> simp [buildExpenseRow]
  · refine ⟨?_, ?_, ?_⟩ <;>
      · norm_num [analyzeReceipt, allowedTypes, maxSize, postProcess, fixAmounts,
          fixVendor, fixDate, fixCurrency, jsAbs, cleanVendor, jsTrim,
          keptVendorChar, isIsoDateShape, applyExtracted, buildExpenseRow]
        all_goals decide

end SpendAnalyzer
